import Mathlib

set_option maxHeartbeats 1000000
set_option maxRecDepth 100000

/-!
Shallow embedding of the scoring-and-deduplication pipeline of `src/main.py`
(Option Trader ML v2.0).  Python floats are modelled as exact rationals;
Python runtime values appearing in raw records are modelled by `PyVal`;
Python exceptions (the only reachable one in the core is the
`AttributeError` raised by calling `.upper()` on a truthy non-string) are
modelled by `Except String`.  The wall-clock timestamp rendered into a
message is passed in as an opaque pre-formatted string, since no logic
depends on it.
-/

/-- A JSON-scalar runtime value as it can occur in a raw record returned by
the upstream feed: Python `None`, `bool`, `int`, `float` (modelled as an
exact rational) or `str`. -/
inductive PyVal where
  | none
  | bool (b : Bool)
  | int (n : Int)
  | float (q : ℚ)
  | str (s : String)
deriving DecidableEq

/-- Python truthiness of a scalar value: `None`, `False`, `0`, `0.0` and the
empty string are falsy, everything else is truthy. -/
def pytruthy : PyVal → Bool
  | PyVal.none => false
  | PyVal.bool b => b
  | PyVal.int n => n != 0
  | PyVal.float q => q != 0
  | PyVal.str s => s != ("")

/-- Python `a or b`: returns `a` when `a` is truthy, else `b`. -/
def pyor (a b : PyVal) : PyVal :=
  if pytruthy a then a else b

/-- Python `str(value)` on a scalar.  The decimal rendering of a float is
modelled by the rational's own rendering; every property proved below about
derived keys depends only on `pystr` being a deterministic function of the
value, not on the exact digits. -/
def pystr : PyVal → String
  | PyVal.none => ("None")
  | PyVal.bool b => if b then ("True") else ("False")
  | PyVal.int n => toString n
  | PyVal.float q => toString q
  | PyVal.str s => s

/-- Python `s.upper()` on a string, character by character. -/
def py_upper (s : String) : String :=
  String.mk (s.toList.map Char.toUpper)

/-- Python `s.replace(",", "")`: removes every comma (the one use of
`str.replace` in the source strips thousands separators). -/
def removeCommas (s : String) : String :=
  String.mk (s.toList.filter (fun c => c != ','))

/-- Python `sep.join(parts)`. -/
def pyJoin (sep : String) : List String → String
  | [] => ("")
  | [x] => x
  | x :: xs => x ++ sep ++ pyJoin sep xs

/-- Numeric value of a decimal-digit list, most significant digit first
(assumes every character is a digit; validity is checked by the caller). -/
def natOfDigits (l : List Char) : Nat :=
  l.foldl (fun a c => a * 10 + (c.toNat - 48)) 0

/-- Parses an unsigned decimal literal (`123`, `123.`, `.5`, `1.25`), the
forms of Python float literals the upstream feed produces.  Exponents,
`inf`/`nan` and embedded underscores are treated as unparseable. -/
def parse_unsigned (l : List Char) : Option ℚ :=
  let ip := l.takeWhile Char.isDigit
  let rest := l.drop ip.length
  match rest with
  | [] => if ip.isEmpty then Option.none else some ((natOfDigits ip : ℚ))
  | '.' :: fp =>
    if fp.all Char.isDigit && (!ip.isEmpty || !fp.isEmpty) then
      some ((natOfDigits ip : ℚ) + (natOfDigits fp : ℚ) / ((10 : ℚ) ^ fp.length))
    else Option.none
  | _ => Option.none

/-- Parses an optionally signed decimal literal. -/
def parse_signed (l : List Char) : Option ℚ :=
  match l with
  | '-' :: rest => (parse_unsigned rest).map (fun q => -q)
  | '+' :: rest => parse_unsigned rest
  | _ => parse_unsigned l

/-- Python's `float(s)` builtin on a string: the parsed value, or a raised
`ValueError` for a string that is not a float literal. -/
def py_float_of_str (s : String) : Except String ℚ :=
  match parse_signed s.toList with
  | some q => Except.ok q
  | Option.none => Except.error ("ValueError")

/-- Embeds `safe_float` (main.py lines 94-100):
`float(str(value).replace(",", ""))` inside `try/except`, with `None`
short-circuited to the default.  The case split mirrors what that
expression does for each runtime type: `str(bool)` is `"True"`/`"False"`
which never parses (default); `str` of an int or float parses back to the
same number; a string has its commas stripped and is parsed, any parse
failure yielding the default. -/
def safe_float : PyVal → ℚ → ℚ
  | PyVal.none, default => default
  | PyVal.bool _, default => default
  | PyVal.int n, _ => (n : ℚ)
  | PyVal.float q, _ => q
  | PyVal.str s, default =>
    match py_float_of_str (removeCommas s) with
    | Except.ok q => q
    | Except.error _ => default

/-- Embeds `classify_direction_from_delta` (lines 102-107). -/
def classify_direction_from_delta (delta : ℚ) : String :=
  if delta ≥ 0.3 then ("BULLISH")
  else if delta ≤ -0.3 then ("BEARISH")
  else ("NEUTRAL")

/-- Rounds a rational to the nearest integer, ties to the even integer:
Python's `round(x)` (banker's rounding). -/
def pyround (q : ℚ) : Int :=
  let f := Int.fdiv q.num q.den
  let r := q - (f : ℚ)
  if r < 1 / 2 then f
  else if 1 / 2 < r then f + 1
  else if f % 2 = 0 then f else f + 1

/-- Renders a rational with exactly `prec` digits after the decimal point
(none when `prec = 0`), rounding ties to even: models Python's fixed-point
format `f"{x:.Nf}"`. -/
def fmtFixed (q : ℚ) (prec : Nat) : String :=
  let scaled := pyround (q * ((10 : ℚ) ^ prec))
  let sign := if scaled < 0 then ("-") else ("")
  let digits := toString scaled.natAbs
  if prec = 0 then sign ++ digits
  else
    let digits :=
      if digits.length < prec + 1 then
        String.mk (List.replicate (prec + 1 - digits.length) '0') ++ digits
      else digits
    let l := digits.toList
    sign ++ String.mk (l.take (l.length - prec)) ++ (".") ++ String.mk (l.drop (l.length - prec))

/-- Groups a reversed digit list into chunks of three separated by commas;
the fuel argument bounds the recursion by the list length. -/
def group3Aux : Nat → List Char → List Char
  | _, [] => []
  | 0, l => l
  | Nat.succ fuel, l =>
    if l.length ≤ 3 then l else l.take 3 ++ ',' :: group3Aux fuel (l.drop 3)

/-- Renders a rational rounded to an integer with thousands separators:
models Python's `f"{x:,.0f}"`. -/
def fmtThousands0 (q : ℚ) : String :=
  let n := pyround q
  let digits := toString n.natAbs
  let grouped := String.mk ((group3Aux digits.length digits.toList.reverse).reverse)
  (if n < 0 then ("-") else ("")) ++ grouped

/-- Embeds `format_premium` (lines 109-114). -/
def format_premium (premium : ℚ) : String :=
  if premium ≥ 1000000 then ("$") ++ fmtFixed (premium / 1000000) 2 ++ ("M")
  else if premium ≥ 1000 then ("$") ++ fmtFixed (premium / 1000) 1 ++ ("K")
  else ("$") ++ fmtFixed premium 0

/-- Embeds `format_direction_emoji` (lines 116-121). -/
def format_direction_emoji (direction : String) : String :=
  if direction = ("BULLISH") then ("🟢")
  else if direction = ("BEARISH") then ("🔴")
  else ("⚪")

/-- Embeds `format_confidence_bar` (lines 123-126): `int(score / 10)` is
float division truncated toward zero, and Python string repetition with a
negative count yields the empty string (`Int.toNat` of a negative is 0). -/
def format_confidence_bar (score : Int) : String :=
  let filled := Int.tdiv score 10
  let empty := 10 - filled
  String.mk (List.replicate filled.toNat '█') ++ String.mk (List.replicate empty.toNat '░')

/-- Python's substring test `needle in hay`. -/
def pyIn (needle hay : String) : Bool :=
  (List.range (hay.toList.length + 1)).any
    (fun i => (hay.toList.drop i).take needle.toList.length == needle.toList)

/-- Embeds the Python expression `(value or "").upper()` as it appears at
main.py lines 162, 195 and 287: a falsy value becomes the empty string, a
string is uppercased, and a truthy non-string raises `AttributeError`
(`.upper()` does not exist on it). -/
def py_upper_or_empty : PyVal → Except String String
  | PyVal.str s => Except.ok (py_upper s)
  | v => if pytruthy v then Except.error ("AttributeError") else Except.ok ("")

/-- Configured minimum premium threshold (line 24). -/
def MIN_PREMIUM_USD : ℚ := 50000

/-- Configured minimum confidence threshold (line 25). -/
def MIN_CONFIDENCE_SCORE : Int := 70

/-- Embeds `ml_timeframe_score` (lines 128-172).  Each `score += w` under an
`if/elif` chain is written as adding the value of the chain; the order-type
keywords are tested on `(order_type or "").upper()`, whose evaluation can
raise. -/
def ml_timeframe_score (premium vol_oi delta dte : ℚ) (order_type : PyVal)
    (direction : String) : Except String Int :=
  let score : Int := 0
  let score := score + (if premium ≥ 1000000 then 40 else if premium ≥ 250000 then 30 else if premium ≥ 50000 then 20 else 0)
  let score := score + (if vol_oi ≥ 20 then 30 else if vol_oi ≥ 10 then 20 else if vol_oi ≥ 5 then 10 else 0)
  let score := score + (if |delta| ≥ 0.9 then 20 else if |delta| ≥ 0.7 then 15 else if |delta| ≥ 0.5 then 10 else 0)
  let score := score + (if dte ≤ 1 then 20 else if dte ≤ 3 then 10 else 0)
  match py_upper_or_empty order_type with
  | Except.error e => Except.error e
  | Except.ok ot =>
    let score := score + (if pyIn ("SWEEP") ot then 15 else 0)
    let score := score + (if pyIn ("BLOCK") ot then 20 else 0)
    let score := score + (if direction = ("BULLISH") ∨ direction = ("BEARISH") then 10 else 0)
    Except.ok (min score 100)

/-- The premium tier table of the Multi-Factor Scorer as the specification
states it; used to compare the source scorer against the spec's additive
bucket description. -/
def premium_bucket (p : ℚ) : Int :=
  if p ≥ 1000000 then 40 else if p ≥ 250000 then 30 else if p ≥ 50000 then 20 else 0

/-- The volume/open-interest tier table as the specification states it. -/
def voloi_bucket (v : ℚ) : Int :=
  if v ≥ 20 then 30 else if v ≥ 10 then 20 else if v ≥ 5 then 10 else 0

/-- The |delta| tier table as the specification states it. -/
def delta_bucket (d : ℚ) : Int :=
  if |d| ≥ 0.9 then 20 else if |d| ≥ 0.7 then 15 else if |d| ≥ 0.5 then 10 else 0

/-- The days-to-expiration tier table as the specification states it. -/
def dte_bucket (t : ℚ) : Int :=
  if t ≤ 1 then 20 else if t ≤ 3 then 10 else 0

/-- The clamped sum of the six additive buckets of the spec's scorer
description, applied to an already-uppercased order-type string. -/
def tier_score (p v d t : ℚ) (u dir : String) : Int :=
  min (premium_bucket p + voloi_bucket v + delta_bucket d + dte_bucket t
    + (if pyIn ("SWEEP") u then 15 else 0)
    + (if pyIn ("BLOCK") u then 20 else 0)
    + (if dir = ("BULLISH") ∨ dir = ("BEARISH") then 10 else 0)) 100

/-- The five single-timeframe confidence scores keyed `5m`, `15m`, `30m`,
`60m`, `EOD`: the dict literal built by `ml_multi_timeframe_predictions`. -/
structure TfPreds where
  m5 : Int
  m15 : Int
  m30 : Int
  m60 : Int
  eod : Int
deriving DecidableEq

/-- Python `preds.get(label, 0)` on the five-key timeframe dict. -/
def TfPreds.getLabel (p : TfPreds) (label : String) : Int :=
  if label = ("5m") then p.m5
  else if label = ("15m") then p.m15
  else if label = ("30m") then p.m30
  else if label = ("60m") then p.m60
  else if label = ("EOD") then p.eod
  else 0

/-- Embeds `ml_multi_timeframe_predictions` (lines 174-181): five scorer
calls with decayed premium/delta and identical remaining inputs. -/
def ml_multi_timeframe_predictions (premium vol_oi delta dte : ℚ) (order_type : PyVal)
    (direction : String) : Except String TfPreds := do
  let m5 ← ml_timeframe_score premium vol_oi delta dte order_type direction
  let m15 ← ml_timeframe_score (premium * 0.9) vol_oi (delta * 0.95) dte order_type direction
  let m30 ← ml_timeframe_score (premium * 0.85) vol_oi (delta * 0.9) dte order_type direction
  let m60 ← ml_timeframe_score (premium * 0.8) vol_oi (delta * 0.85) dte order_type direction
  let eod ← ml_timeframe_score (premium * 0.75) vol_oi (delta * 0.8) dte order_type direction
  pure (TfPreds.mk m5 m15 m30 m60 eod)

/-- Embeds `ml_ensemble` (lines 183-186).  The prediction dict always has
exactly the five timeframe keys, so the `if preds else 0` guard on an empty
dict is never exercised and the average is the sum divided by five. -/
def ml_ensemble (preds : TfPreds) : String × Int :=
  let avg : ℚ := ((preds.m5 + preds.m15 + preds.m30 + preds.m60 + preds.eod : Int) : ℚ) / 5
  (if avg ≥ 60 then ("BULLISH") else ("BEARISH"), pyround avg)

/-- Embeds `detect_whale` (lines 188-197); the order-type keyword test can
raise on a truthy non-string order type. -/
def detect_whale (premium vol_oi delta : ℚ) (order_type : PyVal) : Except String Bool :=
  if premium ≥ 500000 then Except.ok true
  else if vol_oi ≥ 20 then Except.ok true
  else if |delta| ≥ 0.8 then Except.ok true
  else
    match py_upper_or_empty order_type with
    | Except.error e => Except.error e
    | Except.ok ot => Except.ok (pyIn ("BLOCK") ot)

/-- Embeds `darkpool_boost` (lines 199-206). -/
def darkpool_boost (notional : ℚ) : Int :=
  if notional ≥ 100000000 then 30
  else if notional ≥ 50000000 then 20
  else if notional ≥ 10000000 then 10
  else 0

/-- A raw record: a finite string-keyed mapping of scalar values, modelled
as an association list (first binding wins, like a dict). -/
def Record : Type := List (String × PyVal)

instance : DecidableEq Record := by
  unfold Record
  infer_instance

/-- Python `rec.get(key)`: the stored value, or `None` when absent. -/
def Record.get (rec : Record) (key : String) : PyVal :=
  match List.lookup key rec with
  | some v => v
  | Option.none => PyVal.none

/-- Embeds `get_unique_id_from_record` (lines 212-218). -/
def get_unique_id_from_record (rec : Record) : String :=
  let base := pystr (pyor (pyor (Record.get rec ("baseSymbol")) (Record.get rec ("symbol"))) (PyVal.str ("")))
  let strike := pystr (pyor (Record.get rec ("strikePrice")) (PyVal.str ("")))
  let exp := pystr (pyor (Record.get rec ("expirationDate")) (PyVal.str ("")))
  let premium := pystr (pyor (Record.get rec ("premium")) (PyVal.str ("")))
  let ts := pystr (pyor (pyor (Record.get rec ("timestamp")) (Record.get rec ("time"))) (PyVal.str ("")))
  pyJoin ("|") [base, strike, exp, premium, ts]

/-- Embeds `build_combined_ml_unusual_message` (lines 221-283).  The `now`
argument stands for the pre-formatted `datetime.now(...).strftime(...)`
string; everything else is a pure function of the record. -/
def build_combined_ml_unusual_message (now : String) (opt : Record) : Except String (Option String) :=
  let base := pyor (pyor (Record.get opt ("baseSymbol")) (Record.get opt ("symbol"))) (PyVal.str ("N/A"))
  let symbol_type := pyor (Record.get opt ("symbolType")) (PyVal.str ("N/A"))
  let strike := Record.get opt ("strikePrice")
  let exp := Record.get opt ("expirationDate")
  let dte := safe_float (Record.get opt ("daysToExpiration")) 0
  let delta := safe_float (Record.get opt ("delta")) 0
  let premium := safe_float (Record.get opt ("premium")) 0
  let vol := safe_float (Record.get opt ("volume")) 0
  let oi := safe_float (Record.get opt ("openInterest")) 0
  let vol_oi := safe_float (Record.get opt ("volumeOpenInterestRatio")) 0
  let iv := safe_float (Record.get opt ("volatility")) 0
  let order_type := pyor (pyor (Record.get opt ("type")) (Record.get opt ("tradeType"))) (PyVal.str (""))
  let dark_notional := safe_float (Record.get opt ("darkpoolNotional")) 0
  if premium < MIN_PREMIUM_USD then Except.ok Option.none
  else
    let direction := classify_direction_from_delta delta
    match ml_multi_timeframe_predictions premium vol_oi delta dte order_type direction with
    | Except.error e => Except.error e
    | Except.ok tf_preds =>
      let ed := ml_ensemble tf_preds
      let ensemble_dir := ed.1
      let ensemble_score := min 100 (ed.2 + darkpool_boost dark_notional)
      if ensemble_score < MIN_CONFIDENCE_SCORE then Except.ok Option.none
      else
        match detect_whale premium vol_oi delta order_type with
        | Except.error e => Except.error e
        | Except.ok whale =>
          let direction_emoji := format_direction_emoji ensemble_dir
          let confidence_bar := format_confidence_bar ensemble_score
          let premium_str := format_premium premium
          let lines : List String :=
            [direction_emoji ++ (" *COMBINED ML SIGNAL: ") ++ pystr base ++ ("* ") ++ direction_emoji,
             (""),
             ("📉 *Direction:* ") ++ ensemble_dir ++ (" (") ++ toString ensemble_score ++ ("% confidence)")]
            ++ (if whale then [(""), ("✅ *Trigger:* Whale Trade")] else [])
            ++ [(""), ("📊 *Model Predictions:*")]
            ++ ([("5m"), ("15m"), ("30m"), ("60m"), ("EOD")].map (fun label =>
                 (if ensemble_dir = ("BEARISH") then ("🔴") else ("🟢")) ++ (" ") ++ label ++ (": ")
                 ++ (if ensemble_dir = ("BEARISH") then ("DOWN") else ("UP"))
                 ++ (" (") ++ toString (TfPreds.getLabel tf_preds label) ++ ("%)")))
            ++ [(""),
                ("💰 *Flow Summary:*"),
                ("💰 Premium: ") ++ premium_str,
                ("🎯 Strike: ") ++ pystr strike ++ (" ") ++ pystr symbol_type ++ (" | Exp: ") ++ pystr exp ++ (" (DTE: ") ++ fmtFixed dte 0 ++ (")"),
                ("Δ: ") ++ fmtFixed delta 2 ++ (" | Type: ") ++ pystr (pyor order_type (PyVal.str ("N/A"))),
                ("Vol: ") ++ fmtThousands0 vol ++ (" | OI: ") ++ fmtThousands0 oi ++ (" | Vol/OI: ") ++ fmtFixed vol_oi 1 ++ ("x"),
                ("IV: ") ++ fmtFixed iv 1 ++ ("%")]
            ++ (if dark_notional > 0 then [("🏦 Darkpool Notional: ") ++ format_premium dark_notional] else [])
            ++ [(""),
                ("📈 *Conviction Score:* ") ++ toString ensemble_score ++ ("/100"),
                confidence_bar,
                (""),
                ("🕒 ") ++ now ++ (" ET"),
                ("🤖 Option Trader ML v2.0")]
          Except.ok (some (pyJoin ("\n") lines))

/-- Embeds `build_smart_money_flow_message` (lines 285-336).  Note that the
record's `direction` field is uppercased (line 287) before the premium
floor is checked, so a truthy non-string `direction` raises even for
records the floor would reject. -/
def build_smart_money_flow_message (now : String) (flow : Record) : Except String (Option String) :=
  let base := pyor (pyor (Record.get flow ("baseSymbol")) (Record.get flow ("symbol"))) (PyVal.str ("N/A"))
  match py_upper_or_empty (Record.get flow ("direction")) with
  | Except.error e => Except.error e
  | Except.ok direction =>
    let premium := safe_float (Record.get flow ("premium")) 0
    let vol := safe_float (Record.get flow ("volume")) 0
    let oi := safe_float (Record.get flow ("openInterest")) 0
    let vol_oi := safe_float (Record.get flow ("volumeOpenInterestRatio")) 0
    let strike := Record.get flow ("strikePrice")
    let exp := Record.get flow ("expirationDate")
    let dte := safe_float (Record.get flow ("daysToExpiration")) 0
    let delta := safe_float (Record.get flow ("delta")) 0
    let order_type := pyor (pyor (Record.get flow ("type")) (Record.get flow ("tradeType"))) (PyVal.str (""))
    let exchange := pyor (Record.get flow ("exchange")) (PyVal.str ("N/A"))
    let dark_notional := safe_float (Record.get flow ("darkpoolNotional")) 0
    if premium < MIN_PREMIUM_USD then Except.ok Option.none
    else
      match ml_multi_timeframe_predictions premium vol_oi delta dte order_type direction with
      | Except.error e => Except.error e
      | Except.ok tf_preds =>
        let ed := ml_ensemble tf_preds
        let ensemble_dir := ed.1
        let ensemble_score := min 100 (ed.2 + darkpool_boost dark_notional)
        if ensemble_score < MIN_CONFIDENCE_SCORE then Except.ok Option.none
        else
          let direction_emoji := format_direction_emoji ensemble_dir
          let confidence_bar := format_confidence_bar ensemble_score
          let premium_str := format_premium premium
          let lines : List String :=
            [direction_emoji ++ (" *SMART MONEY FLOW - ") ++ ensemble_dir ++ ("* ") ++ direction_emoji,
             ("🎯 *UNUSUAL CONVICTION*"),
             (""),
             ("*") ++ pystr base ++ (" ") ++ pystr strike ++ (" ") ++ pystr exp ++ ("*"),
             ("💲 Premium: ") ++ premium_str,
             ("📅 Exp: ") ++ pystr exp ++ (" (DTE: ") ++ fmtFixed dte 0 ++ (")"),
             (""),
             ("📍 Δ: ") ++ fmtFixed delta 3 ++ (" | Type: ") ++ pystr (pyor order_type (PyVal.str ("N/A"))) ++ (" | Exch: ") ++ pystr exchange,
             ("📈 Vol: ") ++ fmtThousands0 vol ++ (" | OI: ") ++ fmtThousands0 oi ++ (" (") ++ fmtFixed vol_oi 1 ++ ("x)")]
            ++ (if dark_notional > 0 then [("🏦 Darkpool Notional: ") ++ format_premium dark_notional] else [])
            ++ [(""),
                ("📊 *Conviction Score:* ") ++ toString ensemble_score ++ ("/100"),
                confidence_bar,
                (""),
                ("⚡ Quick Take: UNUSUAL CONVICTION - Multiple signals align with flow direction."),
                (""),
                ("🕒 ") ++ now ++ (" ET"),
                ("🤖 Option Trader ML v2.0")]
          Except.ok (some (pyJoin ("\n") lines))

/-- The two per-feed deduplication sets (`seen_unusual_ids`,
`seen_flow_ids`, lines 209-210), modelled as lists of keys. -/
structure DedupState where
  seen_unusual_ids : List String
  seen_flow_ids : List String
deriving DecidableEq

/-- Models one iteration of the per-record loop of
`run_unusual_options_task` (lines 349-356): skip when the key was already
seen, otherwise build the message, and only when the message is truthy
(non-`None` and non-empty) remember the key and emit the alert.  The
returned option is the message handed to the messaging collaborator. -/
def unusual_task_step (now : String) (st : DedupState) (rec : Record) :
    Except String (DedupState × Option String) :=
  let uid := get_unique_id_from_record rec
  if uid ∈ st.seen_unusual_ids then Except.ok (st, Option.none)
  else
    match build_combined_ml_unusual_message now rec with
    | Except.error e => Except.error e
    | Except.ok Option.none => Except.ok (st, Option.none)
    | Except.ok (some m) =>
      if m = ("") then Except.ok (st, Option.none)
      else Except.ok ({ st with seen_unusual_ids := uid :: st.seen_unusual_ids }, some m)

/-- Models one iteration of the per-record loop of `run_options_flow_task`
(lines 368-375), against the flow feed's own seen-set. -/
def flow_task_step (now : String) (st : DedupState) (rec : Record) :
    Except String (DedupState × Option String) :=
  let uid := get_unique_id_from_record rec
  if uid ∈ st.seen_flow_ids then Except.ok (st, Option.none)
  else
    match build_smart_money_flow_message now rec with
    | Except.error e => Except.error e
    | Except.ok Option.none => Except.ok (st, Option.none)
    | Except.ok (some m) =>
      if m = ("") then Except.ok (st, Option.none)
      else Except.ok ({ st with seen_flow_ids := uid :: st.seen_flow_ids }, some m)

/-- The boosted ensemble score exactly as the unusual-activity builder
computes it before its confidence-floor check (lines 226-243): field
extraction, direction from delta, ensemble over decayed timeframes, plus
the dark-pool boost capped at 100. -/
def unusual_boosted_score (opt : Record) : Except String Int :=
  let dte := safe_float (Record.get opt ("daysToExpiration")) 0
  let delta := safe_float (Record.get opt ("delta")) 0
  let premium := safe_float (Record.get opt ("premium")) 0
  let vol_oi := safe_float (Record.get opt ("volumeOpenInterestRatio")) 0
  let order_type := pyor (pyor (Record.get opt ("type")) (Record.get opt ("tradeType"))) (PyVal.str (""))
  let dark_notional := safe_float (Record.get opt ("darkpoolNotional")) 0
  match ml_multi_timeframe_predictions premium vol_oi delta dte order_type (classify_direction_from_delta delta) with
  | Except.error e => Except.error e
  | Except.ok tf_preds => Except.ok (min 100 ((ml_ensemble tf_preds).2 + darkpool_boost dark_notional))

/-- The boosted ensemble score exactly as the flow builder computes it
before its confidence-floor check (lines 287-305): the record's own
uppercased `direction` feeds the scorer. -/
def flow_boosted_score (flow : Record) : Except String Int :=
  match py_upper_or_empty (Record.get flow ("direction")) with
  | Except.error e => Except.error e
  | Except.ok direction =>
    let premium := safe_float (Record.get flow ("premium")) 0
    let vol_oi := safe_float (Record.get flow ("volumeOpenInterestRatio")) 0
    let dte := safe_float (Record.get flow ("daysToExpiration")) 0
    let delta := safe_float (Record.get flow ("delta")) 0
    let order_type := pyor (pyor (Record.get flow ("type")) (Record.get flow ("tradeType"))) (PyVal.str (""))
    let dark_notional := safe_float (Record.get flow ("darkpoolNotional")) 0
    match ml_multi_timeframe_predictions premium vol_oi delta dte order_type direction with
    | Except.error e => Except.error e
    | Except.ok tf_preds => Except.ok (min 100 ((ml_ensemble tf_preds).2 + darkpool_boost dark_notional))

/-- Whether `(v or "").upper()` evaluates without raising. -/
def upper_ok (v : PyVal) : Bool :=
  match py_upper_or_empty v with
  | Except.ok _ => true
  | Except.error _ => false

/-- Extracts the alert text from a builder result, defaulting to the empty
string; only used to name the message produced on a known-alerting record. -/
def msg_of (r : Except String (Option String)) : String :=
  match r with
  | Except.ok (some s) => s
  | _ => ("")

/-- A record rich enough to alert on both feeds: premium 1.2M, vol/OI 25,
delta 0.95, zero DTE fields absent (default 0), order type SWEEP, and a
`direction` field of BEARISH (the flow feed's own label). -/
def recRich : Record :=
  [(("baseSymbol"), PyVal.str ("TSLA")),
   (("premium"), PyVal.int 1200000),
   (("volumeOpenInterestRatio"), PyVal.int 25),
   (("delta"), PyVal.float 0.95),
   (("daysToExpiration"), PyVal.int 1),
   (("type"), PyVal.str ("SWEEP")),
   (("direction"), PyVal.str ("BEARISH")),
   (("timestamp"), PyVal.str ("2026-10-10T14:30:00"))]

/-- A record rejected by the premium floor (premium 10,000). -/
def recLowPremium : Record := [(("premium"), PyVal.int 10000)]

/-- A record that passes the premium floor but scores below the confidence
floor (premium 60,000, everything else defaulted). -/
def recLowScore : Record := [(("premium"), PyVal.int 60000)]

/-- The empty record; its key is the five empty components. -/
def recEmpty : Record := []

/-- The spec's end-to-end example 1 record. -/
def recXYZ : Record :=
  [(("baseSymbol"), PyVal.str ("XYZ")),
   (("premium"), PyVal.int 600000),
   (("volumeOpenInterestRatio"), PyVal.int 25),
   (("delta"), PyVal.float 0.95),
   (("daysToExpiration"), PyVal.int 1),
   (("type"), PyVal.str ("SWEEP")),
   (("darkpoolNotional"), PyVal.int 0)]

/-- A premium-floor-rejected flow record whose `direction` field is a
truthy integer, so uppercasing it raises before the floor is consulted. -/
def recBadDirection : Record :=
  [(("premium"), PyVal.int 10000), (("direction"), PyVal.int 5)]

/-- A floor-passing record whose `type` field is a truthy integer, so the
scorer's `(order_type or "").upper()` raises. -/
def recBadType : Record :=
  [(("premium"), PyVal.int 60000), (("type"), PyVal.int 123)]

/-- Two records that agree on all five named identity fields (all five
absent in both) but differ in the fallback field `symbol`. -/
def recSymA : Record := [(("symbol"), PyVal.str ("A"))]

/-- Companion to `recSymA` with a different `symbol` value. -/
def recSymB : Record := [(("symbol"), PyVal.str ("B"))]

/-- Two records agreeing on all seven key-relevant fields but differing in
`delta`, to exhibit the expected key collision. -/
def recKeyC : Record :=
  [(("baseSymbol"), PyVal.str ("X")), (("delta"), PyVal.float 1)]

/-- Companion to `recKeyC` with a different `delta`. -/
def recKeyD : Record :=
  [(("baseSymbol"), PyVal.str ("X")), (("delta"), PyVal.float (-1))]

/-- The alert text the unusual builder produces for `recRich`. -/
def msgRichU : String := msg_of (build_combined_ml_unusual_message ("10:00:00") recRich)

/-- The alert text the flow builder produces for `recRich`. -/
def msgRichF : String := msg_of (build_smart_money_flow_message ("10:00:00") recRich)

/-- The dedup state in which the empty record's key has already been seen
by the unusual feed. -/
def stSeenEmpty : DedupState :=
  { seen_unusual_ids := [("||||")], seen_flow_ids := [] }

/-- The source scorer equals the spec's clamped bucket sum applied to the
uppercased order type, whenever uppercasing succeeds, and propagates the
`AttributeError` otherwise. -/
theorem ml_score_eq (p v d t : ℚ) (ot : PyVal) (dir : String) :
    ml_timeframe_score p v d t ot dir =
      Except.map (fun u => tier_score p v d t u dir) (py_upper_or_empty ot) := by
  cases hu : py_upper_or_empty ot with
  | error e =>
    simp [ml_timeframe_score, hu, Except.map]
  | ok u =>
    simp only [ml_timeframe_score, hu, Except.map, tier_score, premium_bucket, voloi_bucket,
      delta_bucket, dte_bucket, zero_add]

/-- The five-timeframe predictor as a single map over the uppercasing
result, with the decay schedule of lines 176-180. -/
theorem ml_multi_eq (p v d t : ℚ) (ot : PyVal) (dir : String) :
    ml_multi_timeframe_predictions p v d t ot dir =
      Except.map (fun u => TfPreds.mk
        (tier_score p v d t u dir)
        (tier_score (p * 0.9) v (d * 0.95) t u dir)
        (tier_score (p * 0.85) v (d * 0.9) t u dir)
        (tier_score (p * 0.8) v (d * 0.85) t u dir)
        (tier_score (p * 0.75) v (d * 0.8) t u dir)) (py_upper_or_empty ot) := by
  cases hu : py_upper_or_empty ot with
  | error e =>
    simp [ml_multi_timeframe_predictions, ml_score_eq, hu, Except.map, Bind.bind, Except.bind]
  | ok u =>
    simp [ml_multi_timeframe_predictions, ml_score_eq, hu, Except.map, Bind.bind, Except.bind,
      Pure.pure, Except.pure]

/-- Whale detection never raises once uppercasing the order type is known
to succeed. -/
theorem detect_whale_ok (p v d : ℚ) (ot : PyVal) (u : String)
    (hu : py_upper_or_empty ot = Except.ok u) :
    ∃ b, detect_whale p v d ot = Except.ok b := by
  unfold detect_whale
  rw [hu]
  split_ifs <;> exact ⟨_, rfl⟩

/-- Each spec bucket is nonnegative and bounded by its top weight. -/
theorem premium_bucket_bounds (p : ℚ) : 0 ≤ premium_bucket p ∧ premium_bucket p ≤ 40 := by
  unfold premium_bucket
  split_ifs <;> norm_num

/-- Volume/open-interest bucket bounds. -/
theorem voloi_bucket_bounds (v : ℚ) : 0 ≤ voloi_bucket v ∧ voloi_bucket v ≤ 30 := by
  unfold voloi_bucket
  split_ifs <;> norm_num

/-- Delta bucket bounds. -/
theorem delta_bucket_bounds (d : ℚ) : 0 ≤ delta_bucket d ∧ delta_bucket d ≤ 20 := by
  unfold delta_bucket
  split_ifs <;> norm_num

/-- Days-to-expiration bucket bounds. -/
theorem dte_bucket_bounds (t : ℚ) : 0 ≤ dte_bucket t ∧ dte_bucket t ≤ 20 := by
  unfold dte_bucket
  split_ifs <;> norm_num

/-- The clamped bucket sum lies in [0, 100]. -/
theorem tier_score_bounds (p v d t : ℚ) (u dir : String) :
    0 ≤ tier_score p v d t u dir ∧ tier_score p v d t u dir ≤ 100 := by
  unfold tier_score
  constructor
  · apply le_min
    · have h1 := premium_bucket_bounds p
      have h2 := voloi_bucket_bounds v
      have h3 := delta_bucket_bounds d
      have h4 := dte_bucket_bounds t
      have h5 : (0:Int) ≤ (if pyIn ("SWEEP") u then 15 else 0) := by split_ifs <;> norm_num
      have h6 : (0:Int) ≤ (if pyIn ("BLOCK") u then 20 else 0) := by split_ifs <;> norm_num
      have h7 : (0:Int) ≤ (if dir = ("BULLISH") ∨ dir = ("BEARISH") then 10 else 0) := by
        split_ifs <;> norm_num
      linarith [h1.1, h2.1, h3.1, h4.1]
    · norm_num
  · exact min_le_right _ _

/-- C2: for every input, the Multi-Factor Scorer is the sum of the six
independent additive buckets with exactly the spec's tier tables — premium
{1M:40, 250K:30, 50K:20}, vol/OI {20:30, 10:20, 5:10}, |delta| {0.9:20,
0.7:15, 0.5:10}, DTE {1:20, 3:10}, case-insensitive SWEEP +15 and BLOCK
+20 applied independently, known direction +10 — clamped to at most 100. -/
theorem scorer_is_clamped_bucket_sum (premium vol_oi delta dte : ℚ) (order_type direction : String) :
    ml_timeframe_score premium vol_oi delta dte (PyVal.str order_type) direction =
      Except.ok (min (premium_bucket premium + voloi_bucket vol_oi + delta_bucket delta
        + dte_bucket dte
        + (if pyIn ("SWEEP") (py_upper order_type) then 15 else 0)
        + (if pyIn ("BLOCK") (py_upper order_type) then 20 else 0)
        + (if direction = ("BULLISH") ∨ direction = ("BEARISH") then 10 else 0)) 100) := by
  rw [ml_score_eq]
  rfl

/-- C8: for every input combination — negative premium, arbitrary delta
(taken through its absolute value), negative DTE, arbitrary order-type
text — the Multi-Factor Scorer returns an integer in [0, 100]. -/
theorem scorer_output_bounded (premium vol_oi delta dte : ℚ) (order_type direction : String) :
    ∃ n : Int, ml_timeframe_score premium vol_oi delta dte (PyVal.str order_type) direction
        = Except.ok n ∧ 0 ≤ n ∧ n ≤ 100 := by
  refine ⟨tier_score premium vol_oi delta dte (py_upper order_type) direction, ?_, ?_⟩
  · rw [ml_score_eq]
    rfl
  · exact tier_score_bounds premium vol_oi delta dte (py_upper order_type) direction

/-- Characterization of the ensemble aggregation: direction by the 60
threshold on the mean, score the rounded mean. -/
theorem ml_ensemble_spec (preds : TfPreds) :
    ((ml_ensemble preds).1 = ("BULLISH") ↔
      60 ≤ ((preds.m5 + preds.m15 + preds.m30 + preds.m60 + preds.eod : Int) : ℚ) / 5)
    ∧ ((ml_ensemble preds).1 = ("BEARISH") ↔
      ¬ 60 ≤ ((preds.m5 + preds.m15 + preds.m30 + preds.m60 + preds.eod : Int) : ℚ) / 5)
    ∧ (ml_ensemble preds).2 =
      pyround (((preds.m5 + preds.m15 + preds.m30 + preds.m60 + preds.eod : Int) : ℚ) / 5) := by
  simp only [ml_ensemble]
  by_cases h60 : ((preds.m5 + preds.m15 + preds.m30 + preds.m60 + preds.eod : Int) : ℚ) / 5 ≥ 60
  · rw [if_pos h60]
    refine ⟨?_, ?_, trivial⟩
    · simpa using h60
    · constructor
      · intro hb
        exact absurd hb (by decide)
      · intro hb
        exact absurd h60 (by simpa using hb)
  · rw [if_neg h60]
    refine ⟨?_, ?_, trivial⟩
    · constructor
      · intro hb
        exact absurd hb (by decide)
      · intro hb
        exact absurd hb h60
    · simpa using h60

/-- C3: whenever the Ensemble Predictor succeeds, its five timeframe
scores are exactly the scorer applied with decay factors 1.0, 0.9, 0.85,
0.8, 0.75 on premium and 1.0, 0.95, 0.9, 0.85, 0.8 on delta (vol/OI, DTE,
order type and direction unchanged across timeframes); the ensemble
direction is BULLISH iff the arithmetic mean of the five scores is at
least 60, else BEARISH, and the ensemble score is the rounded mean. -/
theorem ensemble_decay_and_mean (p v d t : ℚ) (ot : PyVal) (dir : String) (preds : TfPreds)
    (h : ml_multi_timeframe_predictions p v d t ot dir = Except.ok preds) :
    ml_timeframe_score p v d t ot dir = Except.ok preds.m5
    ∧ ml_timeframe_score (p * 0.9) v (d * 0.95) t ot dir = Except.ok preds.m15
    ∧ ml_timeframe_score (p * 0.85) v (d * 0.9) t ot dir = Except.ok preds.m30
    ∧ ml_timeframe_score (p * 0.8) v (d * 0.85) t ot dir = Except.ok preds.m60
    ∧ ml_timeframe_score (p * 0.75) v (d * 0.8) t ot dir = Except.ok preds.eod
    ∧ ((ml_ensemble preds).1 = ("BULLISH") ↔
        60 ≤ ((preds.m5 + preds.m15 + preds.m30 + preds.m60 + preds.eod : Int) : ℚ) / 5)
    ∧ ((ml_ensemble preds).1 = ("BEARISH") ↔
        ¬ 60 ≤ ((preds.m5 + preds.m15 + preds.m30 + preds.m60 + preds.eod : Int) : ℚ) / 5)
    ∧ (ml_ensemble preds).2 =
        pyround (((preds.m5 + preds.m15 + preds.m30 + preds.m60 + preds.eod : Int) : ℚ) / 5) := by
  rw [ml_multi_eq] at h
  cases hu : py_upper_or_empty ot with
  | error e =>
    rw [hu] at h
    simp [Except.map] at h
  | ok u =>
    rw [hu] at h
    simp only [Except.map, Except.ok.injEq] at h
    subst h
    have hs := ml_ensemble_spec (TfPreds.mk
      (tier_score p v d t u dir)
      (tier_score (p * 0.9) v (d * 0.95) t u dir)
      (tier_score (p * 0.85) v (d * 0.9) t u dir)
      (tier_score (p * 0.8) v (d * 0.85) t u dir)
      (tier_score (p * 0.75) v (d * 0.8) t u dir))
    refine ⟨?_, ?_, ?_, ?_, ?_, hs.1, hs.2.1, hs.2.2⟩ <;>
      (rw [ml_score_eq, hu]; rfl)

/-- Witness for `ensemble_decay_and_mean` at the all-zero inputs, where
every timeframe scores 20 (the DTE bucket alone). -/
theorem ensemble_decay_and_mean_witness :
    ml_timeframe_score 0 0 0 0 (PyVal.str ("")) ("") = Except.ok 20 :=
  (ensemble_decay_and_mean 0 0 0 0 (PyVal.str ("")) ("") (TfPreds.mk 20 20 20 20 20)
    (by with_unfolding_all rfl)).1

/-- C1 (amended): the premium floor and the confidence floor are hard
rejections in both Message Builders.  The unusual-activity builder returns
no alert whenever the normalized premium is below 50,000, regardless of
every other field; the flow builder does so as well provided uppercasing
its `direction` field does not raise.  When the premium floor passes and
the builder's boosted ensemble score is computed, a score below 70 yields
no alert and a score of at least 70 yields an alert string. -/
theorem premium_and_confidence_floors (now : String) (rec : Record) :
    (safe_float (Record.get rec ("premium")) 0 < MIN_PREMIUM_USD →
      build_combined_ml_unusual_message now rec = Except.ok Option.none)
    ∧ (∀ dirStr, py_upper_or_empty (Record.get rec ("direction")) = Except.ok dirStr →
        safe_float (Record.get rec ("premium")) 0 < MIN_PREMIUM_USD →
        build_smart_money_flow_message now rec = Except.ok Option.none)
    ∧ (∀ sc : Int, unusual_boosted_score rec = Except.ok sc →
        MIN_PREMIUM_USD ≤ safe_float (Record.get rec ("premium")) 0 →
        (sc < MIN_CONFIDENCE_SCORE →
          build_combined_ml_unusual_message now rec = Except.ok Option.none)
        ∧ (MIN_CONFIDENCE_SCORE ≤ sc →
          ∃ s, build_combined_ml_unusual_message now rec = Except.ok (some s)))
    ∧ (∀ sc : Int, flow_boosted_score rec = Except.ok sc →
        MIN_PREMIUM_USD ≤ safe_float (Record.get rec ("premium")) 0 →
        (sc < MIN_CONFIDENCE_SCORE →
          build_smart_money_flow_message now rec = Except.ok Option.none)
        ∧ (MIN_CONFIDENCE_SCORE ≤ sc →
          ∃ s, build_smart_money_flow_message now rec = Except.ok (some s))) := by
  refine ⟨?_, ?_, ?_, ?_⟩
  · intro hp
    simp only [build_combined_ml_unusual_message]
    rw [if_pos hp]
  · intro dirStr hdir hp
    simp only [build_smart_money_flow_message, hdir]
    rw [if_pos hp]
  · intro sc hsc hp
    simp only [unusual_boosted_score] at hsc
    cases hm : ml_multi_timeframe_predictions
        (safe_float (Record.get rec ("premium")) 0)
        (safe_float (Record.get rec ("volumeOpenInterestRatio")) 0)
        (safe_float (Record.get rec ("delta")) 0)
        (safe_float (Record.get rec ("daysToExpiration")) 0)
        (pyor (pyor (Record.get rec ("type")) (Record.get rec ("tradeType"))) (PyVal.str ("")))
        (classify_direction_from_delta (safe_float (Record.get rec ("delta")) 0)) with
    | error e =>
      rw [hm] at hsc
      cases hsc
    | ok preds =>
      rw [hm] at hsc
      simp only [Except.ok.injEq] at hsc
      subst hsc
      have hupper : ∃ u, py_upper_or_empty
          (pyor (pyor (Record.get rec ("type")) (Record.get rec ("tradeType"))) (PyVal.str ("")))
          = Except.ok u := by
        rw [ml_multi_eq] at hm
        cases hu : py_upper_or_empty
            (pyor (pyor (Record.get rec ("type")) (Record.get rec ("tradeType"))) (PyVal.str (""))) with
        | error e =>
          rw [hu] at hm
          cases hm
        | ok u => exact ⟨u, rfl⟩
      obtain ⟨u, hu⟩ := hupper
      obtain ⟨b, hb⟩ := detect_whale_ok
        (safe_float (Record.get rec ("premium")) 0)
        (safe_float (Record.get rec ("volumeOpenInterestRatio")) 0)
        (safe_float (Record.get rec ("delta")) 0) _ u hu
      constructor
      · intro hlt
        simp only [build_combined_ml_unusual_message, hm]
        rw [if_neg (not_lt.mpr hp), if_pos hlt]
      · intro hge
        simp only [build_combined_ml_unusual_message, hm, hb]
        rw [if_neg (not_lt.mpr hp), if_neg (not_lt.mpr hge)]
        exact ⟨_, rfl⟩
  · intro sc hsc hp
    simp only [flow_boosted_score] at hsc
    cases hd : py_upper_or_empty (Record.get rec ("direction")) with
    | error e =>
      rw [hd] at hsc
      cases hsc
    | ok dirStr =>
      rw [hd] at hsc
      simp only [] at hsc
      cases hm : ml_multi_timeframe_predictions
          (safe_float (Record.get rec ("premium")) 0)
          (safe_float (Record.get rec ("volumeOpenInterestRatio")) 0)
          (safe_float (Record.get rec ("delta")) 0)
          (safe_float (Record.get rec ("daysToExpiration")) 0)
          (pyor (pyor (Record.get rec ("type")) (Record.get rec ("tradeType"))) (PyVal.str ("")))
          dirStr with
      | error e =>
        rw [hm] at hsc
        cases hsc
      | ok preds =>
        rw [hm] at hsc
        simp only [Except.ok.injEq] at hsc
        subst hsc
        constructor
        · intro hlt
          simp only [build_smart_money_flow_message, hd, hm]
          rw [if_neg (not_lt.mpr hp), if_pos hlt]
        · intro hge
          simp only [build_smart_money_flow_message, hd, hm]
          rw [if_neg (not_lt.mpr hp), if_neg (not_lt.mpr hge)]
          exact ⟨_, rfl⟩

/-- C1 counterexample: a flow record whose premium (10,000) is below the
50,000 floor nevertheless produces no `None` — the builder raises
`AttributeError` on its truthy integer `direction` field before the
premium floor is consulted, so the floor does not hold regardless of all
other field values. -/
theorem flow_floor_counterexample :
    safe_float (Record.get recBadDirection ("premium")) 0 < MIN_PREMIUM_USD
    ∧ build_smart_money_flow_message ("10:00:00") recBadDirection
        = Except.error ("AttributeError") := by
  constructor
  · with_unfolding_all decide
  · with_unfolding_all rfl

/-- Witness for `premium_and_confidence_floors`: the floor-rejected record
suppresses on both feeds, and a premium-passing record scoring 32 is
rejected by the confidence floor. -/
theorem premium_and_confidence_floors_witness :
    build_combined_ml_unusual_message ("10:00:00") recLowPremium = Except.ok Option.none
    ∧ build_smart_money_flow_message ("10:00:00") recLowPremium = Except.ok Option.none
    ∧ build_combined_ml_unusual_message ("10:00:00") recLowScore = Except.ok Option.none := by
  refine ⟨?_, ?_, ?_⟩
  · exact (premium_and_confidence_floors ("10:00:00") recLowPremium).1
      (by with_unfolding_all decide)
  · exact (premium_and_confidence_floors ("10:00:00") recLowPremium).2.1 ("")
      (by with_unfolding_all rfl) (by with_unfolding_all decide)
  · exact ((premium_and_confidence_floors ("10:00:00") recLowScore).2.2.1 32
      (by with_unfolding_all rfl) (by with_unfolding_all decide)).1
      (by with_unfolding_all decide)

/-- C4: the dark-pool boost is +30 for notional at least 100M, +20 for at
least 50M, +10 for at least 10M, else 0; both builders add it exactly once
to the rounded ensemble mean and cap at 100 (the shape proved here from
the builder's scoring prefix); and for a fixed ensemble score the boosted,
capped result is monotonically non-decreasing in the notional. -/
theorem darkpool_boost_tiers_and_monotonicity :
    (∀ n : ℚ, 100000000 ≤ n → darkpool_boost n = 30)
    ∧ (∀ n : ℚ, 50000000 ≤ n → n < 100000000 → darkpool_boost n = 20)
    ∧ (∀ n : ℚ, 10000000 ≤ n → n < 50000000 → darkpool_boost n = 10)
    ∧ (∀ n : ℚ, n < 10000000 → darkpool_boost n = 0)
    ∧ (∀ (opt : Record) (preds : TfPreds),
        ml_multi_timeframe_predictions
          (safe_float (Record.get opt ("premium")) 0)
          (safe_float (Record.get opt ("volumeOpenInterestRatio")) 0)
          (safe_float (Record.get opt ("delta")) 0)
          (safe_float (Record.get opt ("daysToExpiration")) 0)
          (pyor (pyor (Record.get opt ("type")) (Record.get opt ("tradeType"))) (PyVal.str ("")))
          (classify_direction_from_delta (safe_float (Record.get opt ("delta")) 0)) = Except.ok preds →
        unusual_boosted_score opt = Except.ok (min 100 ((ml_ensemble preds).2
          + darkpool_boost (safe_float (Record.get opt ("darkpoolNotional")) 0))))
    ∧ (∀ (s : Int) (n1 n2 : ℚ), n1 ≤ n2 →
        min 100 (s + darkpool_boost n1) ≤ min 100 (s + darkpool_boost n2)) := by
  have hmono : ∀ (n1 n2 : ℚ), n1 ≤ n2 → darkpool_boost n1 ≤ darkpool_boost n2 := by
    intro n1 n2 h
    unfold darkpool_boost
    split_ifs <;> linarith
  refine ⟨?_, ?_, ?_, ?_, ?_, ?_⟩
  · intro n h
    unfold darkpool_boost
    split_ifs <;> first | rfl | linarith
  · intro n h1 h2
    unfold darkpool_boost
    split_ifs <;> first | rfl | linarith
  · intro n h1 h2
    unfold darkpool_boost
    split_ifs <;> first | rfl | linarith
  · intro n h
    unfold darkpool_boost
    split_ifs <;> first | rfl | linarith
  · intro opt preds hm
    simp only [unusual_boosted_score, hm]
  · intro s n1 n2 h
    exact min_le_min (le_refl _) (by linarith [hmono n1 n2 h])

/-- Witness for `darkpool_boost_tiers_and_monotonicity` across the spec's
tier boundaries 9.9M, 10M, 50M and 100M at a fixed score of 60. -/
theorem darkpool_monotone_witness :
    min 100 (60 + darkpool_boost 9900000) ≤ min 100 (60 + darkpool_boost 10000000)
    ∧ min 100 (60 + darkpool_boost 10000000) ≤ min 100 (60 + darkpool_boost 50000000)
    ∧ min 100 (60 + darkpool_boost 50000000) ≤ min 100 (60 + darkpool_boost 100000000) :=
  ⟨darkpool_boost_tiers_and_monotonicity.2.2.2.2.2 60 9900000 10000000 (by norm_num),
   darkpool_boost_tiers_and_monotonicity.2.2.2.2.2 60 10000000 50000000 (by norm_num),
   darkpool_boost_tiers_and_monotonicity.2.2.2.2.2 60 50000000 100000000 (by norm_num)⟩

/-- C5: a key enters a feed's seen-set exactly when the record passes all
suppression filters and is queued; floor-suppressed records are not
remembered (state unchanged, so they are re-evaluated on the next poll); a
record whose key is already in the set produces no further alert; after a
successful alert, resubmitting the same record alerts no more; and the two
feeds' sets are disjoint — the key just remembered by the unusual feed
does not suppress the same record on the flow feed. -/
theorem dedup_insert_iff_alerted (now : String) (st : DedupState)
    (recSeen recNo recYes : Record) (m m' : String)
    (hSeen : get_unique_id_from_record recSeen ∈ st.seen_unusual_ids)
    (hNoMsg : build_combined_ml_unusual_message now recNo = Except.ok Option.none)
    (hNoSeen : get_unique_id_from_record recNo ∉ st.seen_unusual_ids)
    (hYesU : build_combined_ml_unusual_message now recYes = Except.ok (some m))
    (hmne : m ≠ (""))
    (hYesSeenU : get_unique_id_from_record recYes ∉ st.seen_unusual_ids)
    (hYesF : build_smart_money_flow_message now recYes = Except.ok (some m'))
    (hm'ne : m' ≠ (""))
    (hYesSeenF : get_unique_id_from_record recYes ∉ st.seen_flow_ids) :
    unusual_task_step now st recSeen = Except.ok (st, Option.none)
    ∧ unusual_task_step now st recNo = Except.ok (st, Option.none)
    ∧ unusual_task_step now st recYes = Except.ok
        ({ st with seen_unusual_ids := get_unique_id_from_record recYes :: st.seen_unusual_ids },
         some m)
    ∧ unusual_task_step now
        { st with seen_unusual_ids := get_unique_id_from_record recYes :: st.seen_unusual_ids }
        recYes = Except.ok
        ({ st with seen_unusual_ids := get_unique_id_from_record recYes :: st.seen_unusual_ids },
         Option.none)
    ∧ flow_task_step now
        { st with seen_unusual_ids := get_unique_id_from_record recYes :: st.seen_unusual_ids }
        recYes = Except.ok
        ({ seen_unusual_ids := get_unique_id_from_record recYes :: st.seen_unusual_ids,
           seen_flow_ids := get_unique_id_from_record recYes :: st.seen_flow_ids },
         some m') := by
  refine ⟨?_, ?_, ?_, ?_, ?_⟩
  · simp only [unusual_task_step]
    rw [if_pos hSeen]
  · simp only [unusual_task_step, hNoMsg]
    rw [if_neg hNoSeen]
  · simp only [unusual_task_step, hYesU]
    rw [if_neg hYesSeenU, if_neg hmne]
  · simp only [unusual_task_step]
    rw [if_pos (List.mem_cons_self _ _)]
  · simp only [flow_task_step, hYesF]
    rw [if_neg hYesSeenF, if_neg hm'ne]

/-- Witness for `dedup_insert_iff_alerted` on concrete records: an
already-seen key, a floor-suppressed record, and an alerting record that
is then remembered, resubmitted without effect, and still alerts on the
flow feed. -/
theorem dedup_insert_iff_alerted_witness :
    unusual_task_step ("10:00:00") stSeenEmpty recEmpty = Except.ok (stSeenEmpty, Option.none)
    ∧ unusual_task_step ("10:00:00") stSeenEmpty recLowPremium = Except.ok (stSeenEmpty, Option.none)
    ∧ unusual_task_step ("10:00:00") stSeenEmpty recRich = Except.ok
        ({ stSeenEmpty with
            seen_unusual_ids := get_unique_id_from_record recRich :: stSeenEmpty.seen_unusual_ids },
         some msgRichU)
    ∧ unusual_task_step ("10:00:00")
        { stSeenEmpty with
            seen_unusual_ids := get_unique_id_from_record recRich :: stSeenEmpty.seen_unusual_ids }
        recRich = Except.ok
        ({ stSeenEmpty with
            seen_unusual_ids := get_unique_id_from_record recRich :: stSeenEmpty.seen_unusual_ids },
         Option.none)
    ∧ flow_task_step ("10:00:00")
        { stSeenEmpty with
            seen_unusual_ids := get_unique_id_from_record recRich :: stSeenEmpty.seen_unusual_ids }
        recRich = Except.ok
        ({ seen_unusual_ids := get_unique_id_from_record recRich :: stSeenEmpty.seen_unusual_ids,
           seen_flow_ids := get_unique_id_from_record recRich :: stSeenEmpty.seen_flow_ids },
         some msgRichF) :=
  dedup_insert_iff_alerted ("10:00:00") stSeenEmpty recEmpty recLowPremium recRich
    msgRichU msgRichF
    (by with_unfolding_all decide)
    (by with_unfolding_all rfl)
    (by with_unfolding_all decide)
    (by with_unfolding_all rfl)
    (by with_unfolding_all decide)
    (by with_unfolding_all decide)
    (by with_unfolding_all rfl)
    (by with_unfolding_all decide)
    (by with_unfolding_all decide)

/-- C6 (amended): the Record Identity Function is deterministic and is a
pure function of the five joined key components, each of which is read
with a truthiness fallback: `baseSymbol or symbol`, `strikePrice`,
`expirationDate`, `premium`, and `timestamp or time`.  Two records
agreeing on those seven underlying fields produce identical keys, however
much the rest of their fields differ. -/
theorem key_function_of_seven_fields (r1 r2 : Record)
    (hBase : Record.get r1 ("baseSymbol") = Record.get r2 ("baseSymbol"))
    (hSym : Record.get r1 ("symbol") = Record.get r2 ("symbol"))
    (hStrike : Record.get r1 ("strikePrice") = Record.get r2 ("strikePrice"))
    (hExp : Record.get r1 ("expirationDate") = Record.get r2 ("expirationDate"))
    (hPrem : Record.get r1 ("premium") = Record.get r2 ("premium"))
    (hTs : Record.get r1 ("timestamp") = Record.get r2 ("timestamp"))
    (hTime : Record.get r1 ("time") = Record.get r2 ("time")) :
    get_unique_id_from_record r1 = get_unique_id_from_record r2 := by
  simp only [get_unique_id_from_record, hBase, hSym, hStrike, hExp, hPrem, hTs, hTime]

/-- C6 counterexample: two records that agree on all five named identity
fields — `baseSymbol`, `strikePrice`, `expirationDate`, `premium`,
`timestamp`, every one absent in both — but differ in the fallback field
`symbol`, and receive different keys; the key is not purely a function of
the five named fields. -/
theorem key_five_field_counterexample :
    Record.get recSymA ("baseSymbol") = Record.get recSymB ("baseSymbol")
    ∧ Record.get recSymA ("strikePrice") = Record.get recSymB ("strikePrice")
    ∧ Record.get recSymA ("expirationDate") = Record.get recSymB ("expirationDate")
    ∧ Record.get recSymA ("premium") = Record.get recSymB ("premium")
    ∧ Record.get recSymA ("timestamp") = Record.get recSymB ("timestamp")
    ∧ get_unique_id_from_record recSymA ≠ get_unique_id_from_record recSymB := by
  with_unfolding_all decide

/-- Witness for `key_function_of_seven_fields`: records differing only in
`delta` (not a key field) collide on the same key. -/
theorem key_function_of_seven_fields_witness :
    get_unique_id_from_record recKeyC = get_unique_id_from_record recKeyD :=
  key_function_of_seven_fields recKeyC recKeyD
    (by with_unfolding_all rfl) (by with_unfolding_all rfl) (by with_unfolding_all rfl)
    (by with_unfolding_all rfl) (by with_unfolding_all rfl) (by with_unfolding_all rfl)
    (by with_unfolding_all rfl)

/-- C7 (amended): the Numeric Normalizer returns the given default on null
input and on any parse failure and, being a total function, never raises;
the Message Builders never raise provided the order-type value
(`type`/`tradeType` with fallback) — and, for the flow builder, the
`direction` field — uppercase without a type error, i.e. are strings or
falsy; a truthy non-string in those fields raises `AttributeError`
instead. -/
theorem safe_float_default_and_builders_no_raise (now : String) (rec : Record) (d : ℚ) (s : String)
    (hot : upper_ok (pyor (pyor (Record.get rec ("type")) (Record.get rec ("tradeType")))
      (PyVal.str (""))) = true)
    (hdir : upper_ok (Record.get rec ("direction")) = true) :
    safe_float PyVal.none d = d
    ∧ (py_float_of_str (removeCommas s) = Except.error ("ValueError") →
        safe_float (PyVal.str s) d = d)
    ∧ (∃ r, build_combined_ml_unusual_message now rec = Except.ok r)
    ∧ (∃ r, build_smart_money_flow_message now rec = Except.ok r) := by
  obtain ⟨u, hu⟩ : ∃ u, py_upper_or_empty
      (pyor (pyor (Record.get rec ("type")) (Record.get rec ("tradeType"))) (PyVal.str ("")))
      = Except.ok u := by
    unfold upper_ok at hot
    revert hot
    cases py_upper_or_empty
        (pyor (pyor (Record.get rec ("type")) (Record.get rec ("tradeType"))) (PyVal.str (""))) with
    | error e => intro hot; cases hot
    | ok u => intro hot; exact ⟨u, rfl⟩
  obtain ⟨v, hv⟩ : ∃ v, py_upper_or_empty (Record.get rec ("direction")) = Except.ok v := by
    unfold upper_ok at hdir
    revert hdir
    cases py_upper_or_empty (Record.get rec ("direction")) with
    | error e => intro hdir; cases hdir
    | ok v => intro hdir; exact ⟨v, rfl⟩
  refine ⟨rfl, ?_, ?_, ?_⟩
  · intro hpf
    simp only [safe_float, hpf]
  · by_cases hp : safe_float (Record.get rec ("premium")) 0 < MIN_PREMIUM_USD
    · refine ⟨Option.none, ?_⟩
      simp only [build_combined_ml_unusual_message]
      rw [if_pos hp]
    · cases hm : ml_multi_timeframe_predictions
          (safe_float (Record.get rec ("premium")) 0)
          (safe_float (Record.get rec ("volumeOpenInterestRatio")) 0)
          (safe_float (Record.get rec ("delta")) 0)
          (safe_float (Record.get rec ("daysToExpiration")) 0)
          (pyor (pyor (Record.get rec ("type")) (Record.get rec ("tradeType"))) (PyVal.str ("")))
          (classify_direction_from_delta (safe_float (Record.get rec ("delta")) 0)) with
      | error e =>
        rw [ml_multi_eq, hu] at hm
        cases hm
      | ok preds =>
        obtain ⟨b, hb⟩ := detect_whale_ok
          (safe_float (Record.get rec ("premium")) 0)
          (safe_float (Record.get rec ("volumeOpenInterestRatio")) 0)
          (safe_float (Record.get rec ("delta")) 0) _ u hu
        simp only [build_combined_ml_unusual_message, hm, hb]
        rw [if_neg hp]
        by_cases hsc : min 100 ((ml_ensemble preds).2
            + darkpool_boost (safe_float (Record.get rec ("darkpoolNotional")) 0))
            < MIN_CONFIDENCE_SCORE
        · rw [if_pos hsc]
          exact ⟨Option.none, rfl⟩
        · rw [if_neg hsc]
          exact ⟨_, rfl⟩
  · by_cases hp : safe_float (Record.get rec ("premium")) 0 < MIN_PREMIUM_USD
    · refine ⟨Option.none, ?_⟩
      simp only [build_smart_money_flow_message, hv]
      rw [if_pos hp]
    · cases hm : ml_multi_timeframe_predictions
          (safe_float (Record.get rec ("premium")) 0)
          (safe_float (Record.get rec ("volumeOpenInterestRatio")) 0)
          (safe_float (Record.get rec ("delta")) 0)
          (safe_float (Record.get rec ("daysToExpiration")) 0)
          (pyor (pyor (Record.get rec ("type")) (Record.get rec ("tradeType"))) (PyVal.str ("")))
          v with
      | error e =>
        rw [ml_multi_eq, hu] at hm
        cases hm
      | ok preds =>
        simp only [build_smart_money_flow_message, hv, hm]
        rw [if_neg hp]
        by_cases hsc : min 100 ((ml_ensemble preds).2
            + darkpool_boost (safe_float (Record.get rec ("darkpoolNotional")) 0))
            < MIN_CONFIDENCE_SCORE
        · rw [if_pos hsc]
          exact ⟨Option.none, rfl⟩
        · rw [if_neg hsc]
          exact ⟨_, rfl⟩

/-- C7 counterexample: a record with premium 60,000 (past the floor) whose
`type` field is the integer 123 makes the unusual-activity builder raise
`AttributeError` — the builders are not exception-free for every record
shape. -/
theorem builder_raises_counterexample :
    build_combined_ml_unusual_message ("10:00:00") recBadType
      = Except.error ("AttributeError")
    ∧ build_smart_money_flow_message ("10:00:00") recBadDirection
      = Except.error ("AttributeError") := by
  constructor
  · with_unfolding_all rfl
  · with_unfolding_all rfl

/-- Witness for `safe_float_default_and_builders_no_raise` on `recRich`,
whose order-type and direction fields are strings. -/
theorem safe_float_default_witness :
    safe_float PyVal.none 7 = 7 :=
  (safe_float_default_and_builders_no_raise ("10:00:00") recRich 7 ("abc")
    (by with_unfolding_all rfl) (by with_unfolding_all rfl)).1

/-- C9 (amended): on the spec's example record XYZ the 5m scorer buckets
are premium 30 (600,000 is in the 250K tier, not the 1M tier's 40) +
vol/OI 30 + delta 20 + DTE 20 + sweep 15 + direction (BULLISH via delta at
least 0.3) 10 = 125, clamped to 100; the decayed timeframes score no
higher (all five clamp to 100); the ensemble mean is at least 60 so the
direction is BULLISH with score 100; whale detection fires on premium at
least 500K; and the unusual-activity builder produces an alert. -/
theorem end_to_end_xyz :
    classify_direction_from_delta 0.95 = ("BULLISH")
    ∧ premium_bucket 600000 = 30
    ∧ voloi_bucket 25 = 30
    ∧ delta_bucket 0.95 = 20
    ∧ dte_bucket 1 = 20
    ∧ premium_bucket 600000 + voloi_bucket 25 + delta_bucket 0.95 + dte_bucket 1 + 15 + 10 = 125
    ∧ ml_timeframe_score 600000 25 0.95 1 (PyVal.str ("SWEEP")) ("BULLISH") = Except.ok 100
    ∧ ml_multi_timeframe_predictions 600000 25 0.95 1 (PyVal.str ("SWEEP")) ("BULLISH")
        = Except.ok (TfPreds.mk 100 100 100 100 100)
    ∧ ml_ensemble (TfPreds.mk 100 100 100 100 100) = (("BULLISH"), 100)
    ∧ detect_whale 600000 25 0.95 (PyVal.str ("SWEEP")) = Except.ok true
    ∧ build_combined_ml_unusual_message ("10:00:00") recXYZ
        = Except.ok (some (msg_of (build_combined_ml_unusual_message ("10:00:00") recXYZ))) := by
  refine ⟨?_, ?_, ?_, ?_, ?_, ?_, ?_, ?_, ?_, ?_, ?_⟩ <;> with_unfolding_all rfl

/-- C9 counterexample: the claim's bucket arithmetic is wrong — a 600,000
premium contributes 30, not 40, as the scorer itself shows when every
other bucket is inactive, so the unclamped 5m sum on the example record is
125, not 135. -/
theorem xyz_premium_bucket_counterexample :
    ml_timeframe_score 600000 0 0 100 (PyVal.str ("")) ("NEUTRAL") = Except.ok 30
    ∧ premium_bucket 600000 = 30
    ∧ ¬ premium_bucket 600000 = 40
    ∧ premium_bucket 600000 + voloi_bucket 25 + delta_bucket 0.95 + dte_bucket 1 + 15 + 10 ≠ 135 := by
  refine ⟨?_, ?_, ?_, ?_⟩
  · with_unfolding_all rfl
  · with_unfolding_all decide
  · with_unfolding_all decide
  · with_unfolding_all decide

/-- C10: in the flow pipeline the record's own direction string influences
the scores only through the +10 known-direction bonus — any two direction
strings that are equally known (both in {BULLISH, BEARISH} or both not)
give identical timeframe predictions — while the direction displayed in
the alert header is the ensemble direction; concretely, `recRich` carries
`direction = BEARISH` yet its alert is headed SMART MONEY FLOW - BULLISH. -/
theorem flow_direction_only_bonus :
    (∀ (p v d t : ℚ) (ot : PyVal) (dir1 dir2 : String),
      ((dir1 = ("BULLISH") ∨ dir1 = ("BEARISH")) ↔ (dir2 = ("BULLISH") ∨ dir2 = ("BEARISH"))) →
      ml_multi_timeframe_predictions p v d t ot dir1
        = ml_multi_timeframe_predictions p v d t ot dir2)
    ∧ Record.get recRich ("direction") = PyVal.str ("BEARISH")
    ∧ build_smart_money_flow_message ("10:00:00") recRich = Except.ok (some msgRichF)
    ∧ pyIn ("SMART MONEY FLOW - BULLISH") msgRichF = true
    ∧ pyIn ("SMART MONEY FLOW - BEARISH") msgRichF = false := by
  refine ⟨?_, ?_, ?_, ?_, ?_⟩
  · intro p v d t ot dir1 dir2 hiff
    rw [ml_multi_eq, ml_multi_eq]
    have htier : ∀ (a b : ℚ) (u : String), tier_score a v b t u dir1 = tier_score a v b t u dir2 := by
      intro a b u
      unfold tier_score
      by_cases h1 : dir1 = ("BULLISH") ∨ dir1 = ("BEARISH")
      · rw [if_pos h1, if_pos (hiff.mp h1)]
      · rw [if_neg h1, if_neg (fun h2 => h1 (hiff.mpr h2))]
    simp only [htier]
  · with_unfolding_all rfl
  · with_unfolding_all rfl
  · with_unfolding_all rfl
  · with_unfolding_all rfl

/-- Witness for `flow_direction_only_bonus`: BULLISH and BEARISH direction
inputs (both known) give identical timeframe predictions. -/
theorem flow_direction_only_bonus_witness :
    ml_multi_timeframe_predictions 0 0 0 0 (PyVal.str ("")) ("BULLISH")
      = ml_multi_timeframe_predictions 0 0 0 0 (PyVal.str ("")) ("BEARISH") :=
  flow_direction_only_bonus.1 0 0 0 0 (PyVal.str ("")) ("BULLISH") ("BEARISH")
    (by simp)
